import Mathlib

/-!
Shallow embedding of `src/python-backend/main.py` (airline customer-service
agents plus the Gabi support agent and the FastAPI chat endpoint), together
with proofs about the embedded operations.

Python's `random` calls are modelled as functions of explicit seed arguments:
`random.randint(lo, hi)` becomes `randint lo hi seed`, which reaches exactly
the values in `[lo, hi]`, and `random.choices(pop, k=k)` becomes
`pyChoices pop k seed` over a seed stream. Failing `assert` statements are
embedded as an `Option` result (`none` = AssertionError), paired with the
context as mutated up to the point of the failure, matching Python's
in-place mutation semantics.
-/

/-- The session context `AirlineAgentContext` from main.py: every field is
optional and defaults to `None`. -/
structure AirlineAgentContext where
  passenger_name : Option String := none
  confirmation_number : Option String := none
  seat_number : Option String := none
  flight_number : Option String := none
  account_number : Option String := none
  deriving Repr, DecidableEq

/-- Python `random.randint(lo, hi)` (both bounds inclusive), as a function of a
seed: for `lo ≤ hi` the result ranges over exactly `[lo, hi]`. -/
def randint (lo hi seed : Nat) : Nat := lo + seed % (hi + 1 - lo)

/-- Python `str(n)` for a non-negative integer: big-endian decimal digits. -/
def toDecString (n : Nat) : String :=
  if n = 0 then "0" else String.mk (((Nat.digits 10 n).reverse).map Nat.digitChar)

/-- The population `string.ascii_uppercase + string.digits` used by both
handoff hooks to synthesize confirmation numbers. -/
def confAlphabet : List Char := ("ABCDEFGHIJKLMNOPQRSTUVWXYZ" ++ "0123456789").data

/-- Python `random.choices(pop, k=k)`: `k` independent draws from `pop`,
modelled on a stream of seeds. -/
def pyChoices (pop : List Char) (k : Nat) (seed : Nat → Nat) : List Char :=
  (List.range k).map (fun i => pop.getD (seed i % pop.length) 'A')

/-- `create_initial_context` from main.py: fresh context whose only populated
field is a random 8-digit account number. -/
def create_initial_context (seed : Nat) : AirlineAgentContext :=
  { account_number := some (toDecString (randint 10000000 99999999 seed)) }

/-- Python `s.lower()` (the inputs at issue are ASCII). -/
def pyLower (s : String) : String := String.mk (s.data.map Char.toLower)

/-- Python `pat in s` on strings: substring containment. -/
def strContains (s pat : String) : Bool := decide (pat.data <:+: s.data)

/-- `faq_lookup_tool` from main.py: keyword lookup over the lowercased
question, checked in source order (bag/baggage, then seats/plane, then wifi). -/
def faq_lookup_tool (question : String) : String :=
  let q := pyLower question
  if strContains q "bag" || strContains q "baggage" then
    "You are allowed to bring one bag on the plane. It must be under 50 pounds and 22 inches x 14 inches x 9 inches."
  else if strContains q "seats" || strContains q "plane" then
    "There are 120 seats on the plane. There are 22 business class seats and 98 economy seats. Exit rows are rows 4 and 16. Rows 5-8 are Economy Plus, with extra legroom."
  else if strContains q "wifi" then
    "We have free wifi on the plane, join Airline-Wifi"
  else
    "I\x27m sorry, I don\x27t know the answer to that question."

/-- `update_seat` from main.py. The Python body first writes
`confirmation_number` and `seat_number` into the context and only then asserts
`flight_number is not None`; the failing assertion is embedded as result
`none`, paired with the context as already mutated. -/
def update_seat (ctx : AirlineAgentContext) (confirmation_number new_seat : String) :
    Option String × AirlineAgentContext :=
  let ctx1 := { ctx with confirmation_number := some confirmation_number }
  let ctx2 := { ctx1 with seat_number := some new_seat }
  if ctx2.flight_number.isSome then
    (some ("Updated seat to " ++ new_seat ++ " for confirmation number " ++ confirmation_number),
     ctx2)
  else
    (none, ctx2)

/-- `cancel_flight` from main.py: asserts `flight_number is not None` before
writing anything; it never mutates the context. -/
def cancel_flight (ctx : AirlineAgentContext) : Option String × AirlineAgentContext :=
  match ctx.flight_number with
  | some fn => (some ("Flight " ++ fn ++ " successfully cancelled"), ctx)
  | none => (none, ctx)

/-- `on_seat_booking_handoff` from main.py: unconditionally overwrites
`flight_number` with `FLT-` + `randint(100, 999)` and `confirmation_number`
with 6 random draws from uppercase letters and digits. -/
def on_seat_booking_handoff (fseed : Nat) (cseed : Nat → Nat)
    (ctx : AirlineAgentContext) : AirlineAgentContext :=
  { ctx with
      flight_number := some ("FLT-" ++ toDecString (randint 100 999 fseed)),
      confirmation_number := some (String.mk (pyChoices confAlphabet 6 cseed)) }

/-- `on_cancellation_handoff` from main.py: populates `confirmation_number`
and then `flight_number` with synthetic values, each only when the field is
`None`. -/
def on_cancellation_handoff (cseed : Nat → Nat) (fseed : Nat)
    (ctx : AirlineAgentContext) : AirlineAgentContext :=
  let ctx1 :=
    if ctx.confirmation_number = none then
      { ctx with confirmation_number := some (String.mk (pyChoices confAlphabet 6 cseed)) }
    else ctx
  if ctx1.flight_number = none then
    { ctx1 with flight_number := some ("FLT-" ++ toDecString (randint 100 999 fseed)) }
  else ctx1

/-- Python `x or default` on an optional string: both `None` and the empty
string are falsy. -/
def pyOr (x : Option String) (d : String) : String :=
  match x with
  | none => d
  | some s => if s = "" then d else s

/-- `cancellation_instructions` from main.py. `pre` stands for the constant
`RECOMMENDED_PROMPT_PREFIX` imported from the external `agents` package
(outside this repository). -/
def cancellation_instructions (pre : String) (ctx : AirlineAgentContext) : String :=
  let confirmation := pyOr ctx.confirmation_number "[unknown]"
  let flight := pyOr ctx.flight_number "[unknown]"
  pre ++ "\n" ++
  "You are a Cancellation Agent. Use the following routine to support the customer:\n" ++
  "1. The customer\x27s confirmation number is " ++ confirmation ++
  " and flight number is " ++ flight ++ ".\n" ++
  "   If either is not available, ask the customer for the missing information. If you have both, confirm with the customer that these are correct.\n" ++
  "2. If the customer confirms, use the cancel_flight tool to cancel their flight.\n" ++
  "If the customer asks anything else, transfer back to the triage agent."

/-- Output schema of the relevance checker (`RelevanceOutput` in main.py). -/
structure RelevanceOutput where
  reasoning : String
  is_relevant : Bool

/-- Output schema of the jailbreak checker (`JailbreakOutput` in main.py). -/
structure JailbreakOutput where
  reasoning : String
  is_safe : Bool

/-- `GuardrailFunctionOutput` from the agents SDK, as used in main.py. -/
structure GuardrailFunctionOutput (α : Type) where
  output_info : α
  tripwire_triggered : Bool

/-- `relevance_guardrail` from main.py, with the external inference call
(`Runner.run` on the guardrail agent) modelled as the given function `check`
of the input. It returns the verdict and leaves the context untouched. -/
def relevance_guardrail (check : String → RelevanceOutput)
    (ctx : AirlineAgentContext) (input : String) :
    GuardrailFunctionOutput RelevanceOutput × AirlineAgentContext :=
  let final := check input
  ({ output_info := final, tripwire_triggered := !final.is_relevant }, ctx)

/-- `jailbreak_guardrail` from main.py, with the external inference call
modelled as the given function `check` of the input. -/
def jailbreak_guardrail (check : String → JailbreakOutput)
    (ctx : AirlineAgentContext) (input : String) :
    GuardrailFunctionOutput JailbreakOutput × AirlineAgentContext :=
  let final := check input
  ({ output_info := final, tripwire_triggered := !final.is_safe }, ctx)

/-- A handler node of the routing graph: name, description shown to peers,
tool names, and outgoing handoff edges (by target name). -/
structure AgentDef where
  name : String
  handoff_description : String
  tools : List String
  handoffs : List String
  deriving Repr, DecidableEq

/-- `seat_booking_agent` as first constructed in main.py (no handoffs yet). -/
def seat_booking_agent_base : AgentDef :=
  { name := "Seat Booking Agent",
    handoff_description := "A helpful agent that can update a seat on a flight.",
    tools := ["update_seat", "display_seat_map"],
    handoffs := [] }

/-- `flight_status_agent` as first constructed in main.py (no handoffs yet). -/
def flight_status_agent_base : AgentDef :=
  { name := "Flight Status Agent",
    handoff_description := "An agent to provide flight status information.",
    tools := ["flight_status_tool"],
    handoffs := [] }

/-- `cancellation_agent` as first constructed in main.py (no handoffs yet). -/
def cancellation_agent_base : AgentDef :=
  { name := "Cancellation Agent",
    handoff_description := "An agent to cancel flights.",
    tools := ["cancel_flight"],
    handoffs := [] }

/-- `faq_agent` as first constructed in main.py (no handoffs yet). -/
def faq_agent_base : AgentDef :=
  { name := "FAQ Agent",
    handoff_description := "A helpful agent that can answer questions about the airline.",
    tools := ["faq_lookup_tool"],
    handoffs := [] }

/-- `triage_agent` from main.py, whose handoffs list the four spoke agents
(two of them wrapped with handoff hooks in the source). -/
def triage_agent : AgentDef :=
  { name := "Triage Agent",
    handoff_description := "A triage agent that can delegate a customer\x27s request to the appropriate agent.",
    tools := [],
    handoffs := ["Flight Status Agent", "Cancellation Agent", "FAQ Agent", "Seat Booking Agent"] }

/-- main.py line 313: `faq_agent.handoffs.append(triage_agent)`. -/
def faq_agent : AgentDef :=
  { faq_agent_base with handoffs := faq_agent_base.handoffs ++ ["Triage Agent"] }

/-- main.py line 314: `seat_booking_agent.handoffs.append(triage_agent)`. -/
def seat_booking_agent : AgentDef :=
  { seat_booking_agent_base with handoffs := seat_booking_agent_base.handoffs ++ ["Triage Agent"] }

/-- main.py line 315: `flight_status_agent.handoffs.append(triage_agent)`. -/
def flight_status_agent : AgentDef :=
  { flight_status_agent_base with handoffs := flight_status_agent_base.handoffs ++ ["Triage Agent"] }

/-- main.py line 317: `cancellation_agent.handoffs.append(triage_agent)`. -/
def cancellation_agent : AgentDef :=
  { cancellation_agent_base with handoffs := cancellation_agent_base.handoffs ++ ["Triage Agent"] }

/-- The standalone `gabi` agent (`OpenAIAgent`) from main.py: not a node of
the airline routing graph, no tools and no handoffs. -/
def gabi : AgentDef :=
  { name := "Gabi – Atendimento Idiomus",
    handoff_description := "",
    tools := [],
    handoffs := [] }

/-- Result of one POST /chat request, recording which agent the endpoint ran
and the response text it returned. -/
structure ChatResult where
  invoked_agent : AgentDef
  response : String
  deriving Repr, DecidableEq

/-- Python `data.get(key, default)` on the parsed JSON body (string fields). -/
def pyGet (body : List (String × String)) (key d : String) : String :=
  match body.find? (fun kv => kv.fst == key) with
  | some kv => kv.snd
  | none => d

/-- The POST /chat endpoint from main.py: it reads `message` from the body
(defaulting to the empty string) and calls `gabi.run(user_message)`, returning
the final output as the response. `gabiRun` models the external inference call
behind `gabi.run`, a function of the message text only — no session context
and no conversation history are passed. -/
def chat (gabiRun : String → String) (body : List (String × String)) : ChatResult :=
  { invoked_agent := gabi, response := gabiRun (pyGet body "message" "") }

/-! ### Helper lemmas -/

/-- `randint lo hi seed` really lands in `[lo, hi]` when `lo ≤ hi`. -/
theorem randint_mem (lo hi seed : Nat) (h : lo ≤ hi) :
    lo ≤ randint lo hi seed ∧ randint lo hi seed ≤ hi := by
  unfold randint
  have hm : seed % (hi + 1 - lo) < hi + 1 - lo := Nat.mod_lt _ (by omega)
  omega

/-- Decimal digit characters produced by `Nat.digitChar` below 10. -/
theorem digitChar_mem_digits :
    ∀ d : Nat, d < 10 → Nat.digitChar d ∈ ("0123456789" : String).data := by
  decide

/-- Every character of `toDecString n` is a decimal digit. -/
theorem toDecString_chars (n : Nat) :
    ∀ c ∈ (toDecString n).data, c ∈ ("0123456789" : String).data := by
  intro c hc
  unfold toDecString at hc
  by_cases h0 : n = 0
  · simp [h0] at hc
    simp [hc]
  · simp only [h0, if_false] at hc
    have hc' : c ∈ ((Nat.digits 10 n).reverse).map Nat.digitChar := hc
    obtain ⟨d, hd, rfl⟩ := List.mem_map.mp hc'
    have hd' : d ∈ Nat.digits 10 n := List.mem_reverse.mp hd
    exact digitChar_mem_digits d (Nat.digits_lt_base (by norm_num) hd')

/-- Length of the decimal rendering of `n` with `10 ^ k ≤ n < 10 ^ (k + 1)`. -/
theorem toDecString_length_of_lt {k n : Nat} (h1 : 10 ^ k ≤ n) (h2 : n < 10 ^ (k + 1)) :
    (toDecString n).length = k + 1 := by
  have hn : n ≠ 0 := by
    have : 0 < 10 ^ k := Nat.pos_pow_of_pos k (by norm_num)
    omega
  unfold toDecString
  simp only [hn, if_false]
  show (((Nat.digits 10 n).reverse).map Nat.digitChar).length = k + 1
  rw [List.length_map, List.length_reverse, Nat.digits_len 10 n (by norm_num) hn,
    Nat.log_eq_of_pow_le_of_lt_pow h1 h2]

/-- `List.getD` at an in-range index is a member of the list. -/
theorem getD_mem_of_lt : ∀ (l : List Char) (i : Nat) (d : Char), i < l.length → l.getD i d ∈ l := by
  intro l
  induction l with
  | nil => intro i d h; simp at h
  | cons a t ih =>
    intro i d h
    cases i with
    | zero => simp [List.getD]
    | succ j =>
      have := ih j d (by simpa using h)
      simp [List.getD] at this ⊢
      right
      simpa [List.getD] using this

/-- `pyChoices` draws `k` characters. -/
theorem pyChoices_length (pop : List Char) (k : Nat) (seed : Nat → Nat) :
    (pyChoices pop k seed).length = k := by
  simp [pyChoices]

/-- Every character drawn by `pyChoices` from a nonempty population belongs
to the population. -/
theorem pyChoices_mem {pop : List Char} (hp : pop ≠ []) (k : Nat) (seed : Nat → Nat) :
    ∀ c ∈ pyChoices pop k seed, c ∈ pop := by
  intro c hc
  simp only [pyChoices, List.mem_map, List.mem_range] at hc
  obtain ⟨i, _, rfl⟩ := hc
  have hlen : 0 < pop.length := List.length_pos.mpr hp
  exact getD_mem_of_lt pop _ 'A' (Nat.mod_lt _ hlen)

/-- If some character of `pat` is absent from `s`, then `pat` is not a
substring of `s`. -/
theorem strContains_eq_false {s pat : String} {c : Char}
    (hc : c ∈ pat.data) (hs : c ∉ s.data) : strContains s pat = false := by
  unfold strContains
  simp only [decide_eq_false_iff_not]
  intro hinf
  exact hs (hinf.subset hc)

/-- The open bracket never occurs in a synthetic confirmation number. -/
theorem confString_no_bracket (cseed : Nat → Nat) :
    '[' ∉ (String.mk (pyChoices confAlphabet 6 cseed)).data := by
  intro hmem
  have : '[' ∈ confAlphabet := pyChoices_mem (by decide) 6 cseed _ hmem
  exact absurd this (by decide)

/-- The open bracket never occurs in a decimal rendering. -/
theorem toDecString_no_bracket (n : Nat) : '[' ∉ (toDecString n).data := by
  intro hmem
  have : '[' ∈ ("0123456789" : String).data := toDecString_chars n _ hmem
  exact absurd this (by decide)

/-! ### Claim theorems -/

/-- Claim C1, counterexample: invoking `update_seat` on the empty context
(whose `flight_number` is `None`) makes the assertion fire, yet the context
after the failing invocation differs from the context before it — the
mutation was attempted and persists. -/
theorem update_seat_missing_flight_cex :
    (({} : AirlineAgentContext).flight_number = none) ∧
    (update_seat {} "ABC123" "1A").fst = none ∧
    (update_seat {} "ABC123" "1A").snd ≠ ({} : AirlineAgentContext) := by
  refine ⟨rfl, rfl, ?_⟩
  decide

/-- Claim C1 (amended): on a context with `flight_number = None`, every
`update_seat` invocation fails (the assertion fires, fatal for the turn), but
only after the mutation has been applied: afterwards `confirmation_number`
and `seat_number` hold the supplied arguments while the remaining fields are
unchanged. -/
theorem update_seat_missing_flight_fails_after_mutation
    (ctx : AirlineAgentContext) (conf seat : String) (h : ctx.flight_number = none) :
    (update_seat ctx conf seat).fst = none ∧
    (update_seat ctx conf seat).snd =
      { ctx with confirmation_number := some conf, seat_number := some seat } := by
  simp [update_seat, h]

/-- Witness for the amended C1 theorem at the empty context. -/
theorem update_seat_missing_flight_fails_after_mutation_witness :
    (({} : AirlineAgentContext).flight_number = none) ∧
    ((update_seat {} "LL0EZ6" "4B").fst = none ∧
     (update_seat {} "LL0EZ6" "4B").snd =
       { ({} : AirlineAgentContext) with
           confirmation_number := some "LL0EZ6", seat_number := some "4B" }) :=
  ⟨rfl, update_seat_missing_flight_fails_after_mutation {} "LL0EZ6" "4B" rfl⟩

/-- Claim C2: on a context whose `flight_number` is set, `update_seat`
succeeds, returns the confirmation text embedding both supplied values, and
afterwards `seat_number` and `confirmation_number` hold the supplied values. -/
theorem update_seat_success
    (ctx : AirlineAgentContext) (conf seat : String) (h : ctx.flight_number.isSome) :
    (update_seat ctx conf seat).fst =
      some ("Updated seat to " ++ seat ++ " for confirmation number " ++ conf) ∧
    (update_seat ctx conf seat).snd.seat_number = some seat ∧
    (update_seat ctx conf seat).snd.confirmation_number = some conf := by
  simp [update_seat, h]

/-- Witness for C2 on a context with a flight number present. -/
theorem update_seat_success_witness :
    (({ flight_number := some "FLT-123" } : AirlineAgentContext).flight_number.isSome) ∧
    ((update_seat { flight_number := some "FLT-123" } "LL0EZ6" "4B").fst =
      some ("Updated seat to " ++ "4B" ++ " for confirmation number " ++ "LL0EZ6") ∧
     (update_seat { flight_number := some "FLT-123" } "LL0EZ6" "4B").snd.seat_number = some "4B" ∧
     (update_seat { flight_number := some "FLT-123" } "LL0EZ6" "4B").snd.confirmation_number =
       some "LL0EZ6") :=
  ⟨rfl, update_seat_success { flight_number := some "FLT-123" } "LL0EZ6" "4B" rfl⟩

/-- Claim C3: none of the four context-mutating operations (`update_seat`,
`cancel_flight`, `on_seat_booking_handoff`, `on_cancellation_handoff`) ever
clears `confirmation_number` or `flight_number`: on the Bool order,
`isSome` before ≤ `isSome` after for each operation and each field. -/
theorem context_fields_never_cleared
    (ctx : AirlineAgentContext) (conf seat : String)
    (fseed : Nat) (cseed : Nat → Nat) (cseed2 : Nat → Nat) (fseed2 : Nat) :
    (ctx.confirmation_number.isSome ≤ (update_seat ctx conf seat).snd.confirmation_number.isSome ∧
     ctx.flight_number.isSome ≤ (update_seat ctx conf seat).snd.flight_number.isSome) ∧
    (ctx.confirmation_number.isSome ≤ (cancel_flight ctx).snd.confirmation_number.isSome ∧
     ctx.flight_number.isSome ≤ (cancel_flight ctx).snd.flight_number.isSome) ∧
    (ctx.confirmation_number.isSome ≤
       (on_seat_booking_handoff fseed cseed ctx).confirmation_number.isSome ∧
     ctx.flight_number.isSome ≤ (on_seat_booking_handoff fseed cseed ctx).flight_number.isSome) ∧
    (ctx.confirmation_number.isSome ≤
       (on_cancellation_handoff cseed2 fseed2 ctx).confirmation_number.isSome ∧
     ctx.flight_number.isSome ≤
       (on_cancellation_handoff cseed2 fseed2 ctx).flight_number.isSome) := by
  cases hc : ctx.confirmation_number <;> cases hf : ctx.flight_number <;>
    simp [update_seat, cancel_flight, on_seat_booking_handoff, on_cancellation_handoff, hc, hf]

/-- Claim C4: starting from a context with neither a confirmation number nor
a flight number, `on_cancellation_handoff` populates both fields with
non-None synthetic values, and the instructions rendered by
`cancellation_instructions` on the post-hook context never contain the
literal placeholder "[unknown]" (for any prompt preamble free of the open
bracket, as the external RECOMMENDED_PROMPT_PREFIX is). -/
theorem cancellation_handoff_populates_and_no_unknown
    (pre : String) (cseed : Nat → Nat) (fseed : Nat) (ctx : AirlineAgentContext)
    (hc : ctx.confirmation_number = none) (hf : ctx.flight_number = none)
    (hp : '[' ∉ pre.data) :
    (on_cancellation_handoff cseed fseed ctx).confirmation_number ≠ none ∧
    (on_cancellation_handoff cseed fseed ctx).flight_number ≠ none ∧
    strContains
      (cancellation_instructions pre (on_cancellation_handoff cseed fseed ctx))
      "[unknown]" = false := by
  have hconf : (on_cancellation_handoff cseed fseed ctx).confirmation_number =
      some (String.mk (pyChoices confAlphabet 6 cseed)) := by
    simp [on_cancellation_handoff, hc, hf]
  have hflight : (on_cancellation_handoff cseed fseed ctx).flight_number =
      some ("FLT-" ++ toDecString (randint 100 999 fseed)) := by
    simp [on_cancellation_handoff, hc, hf]
  have hcne : String.mk (pyChoices confAlphabet 6 cseed) ≠ "" := by
    intro h
    have hd : pyChoices confAlphabet 6 cseed = [] := congrArg String.data h
    have h6 : (pyChoices confAlphabet 6 cseed).length = 0 := by rw [hd]; rfl
    rw [pyChoices_length] at h6
    exact absurd h6 (by omega)
  have hfne : ("FLT-" ++ toDecString (randint 100 999 fseed)) ≠ "" := by
    intro h
    have hd : ("FLT-").data ++ (toDecString (randint 100 999 fseed)).data = ([] : List Char) := by
      rw [← String.data_append]
      exact congrArg String.data h
    rcases List.append_eq_nil.mp hd with ⟨h1, _⟩
    exact absurd h1 (by decide)
  have hpyC : pyOr (some (String.mk (pyChoices confAlphabet 6 cseed))) "[unknown]" =
      String.mk (pyChoices confAlphabet 6 cseed) := by
    simp only [pyOr]
    rw [if_neg hcne]
  have hpyF : pyOr (some ("FLT-" ++ toDecString (randint 100 999 fseed))) "[unknown]" =
      ("FLT-" ++ toDecString (randint 100 999 fseed)) := by
    simp only [pyOr]
    rw [if_neg hfne]
  refine ⟨by rw [hconf]; exact fun h => Option.noConfusion h,
         by rw [hflight]; exact fun h => Option.noConfusion h, ?_⟩
  apply strContains_eq_false (c := '[') (by decide)
  simp only [cancellation_instructions, hconf, hflight, hpyC, hpyF, String.data_append]
  repeat' apply List.not_mem_append
  all_goals first
    | exact hp
    | exact confString_no_bracket cseed
    | exact toDecString_no_bracket _
    | decide

/-- Witness for C4 at the empty context, empty preamble and zero seeds. -/
theorem cancellation_handoff_populates_and_no_unknown_witness :
    (({} : AirlineAgentContext).confirmation_number = none) ∧
    (({} : AirlineAgentContext).flight_number = none) ∧
    ('[' ∉ ("" : String).data) ∧
    ((on_cancellation_handoff (fun _ => 0) 0 {}).confirmation_number ≠ none ∧
     (on_cancellation_handoff (fun _ => 0) 0 {}).flight_number ≠ none ∧
     strContains
       (cancellation_instructions "" (on_cancellation_handoff (fun _ => 0) 0 {}))
       "[unknown]" = false) :=
  ⟨rfl, rfl, by decide,
    cancellation_handoff_populates_and_no_unknown "" (fun _ => 0) 0 {} rfl rfl (by decide)⟩

/-- Claim C5, counterexample: on a concrete POST /chat request the endpoint
runs the standalone `gabi` agent, whose name differs from the entry handler
and from every node of the airline routing graph — the dispatch core is not
invoked. -/
theorem chat_does_not_invoke_triage_graph_cex :
    (chat (fun _ => "hello") [("message", "hi")]).invoked_agent.name ≠ triage_agent.name ∧
    (chat (fun _ => "hello") [("message", "hi")]).invoked_agent.name ∉
      [triage_agent.name, faq_agent.name, seat_booking_agent.name,
       flight_status_agent.name, cancellation_agent.name] := by
  decide

/-- Claim C5 (amended): for every POST /chat request carrying message `m`,
the endpoint returns the final output of running the standalone `gabi` agent
on `m` alone — not the triage-rooted handler graph, and with no session
context or conversation history passed. -/
theorem chat_runs_gabi_on_message (gabiRun : String → String) (m : String) :
    (chat gabiRun [("message", m)]).response = gabiRun m ∧
    (chat gabiRun [("message", m)]).invoked_agent = gabi ∧
    gabi.name ∉ [triage_agent.name, faq_agent.name, seat_booking_agent.name,
      flight_status_agent.name, cancellation_agent.name] :=
  ⟨rfl, rfl, by decide⟩

/-- Claim C6: whatever the pseudo-random outcome, `create_initial_context`
yields a context whose account number renders an integer in
`[10000000, 99999999]` as a string of exactly 8 decimal digits, with every
other field `None`. -/
theorem create_initial_context_account_number (seed : Nat) :
    ∃ n : Nat, 10000000 ≤ n ∧ n ≤ 99999999 ∧
      (create_initial_context seed).account_number = some (toDecString n) ∧
      (toDecString n).length = 8 ∧
      (∀ c ∈ (toDecString n).data, c ∈ ("0123456789" : String).data) ∧
      (create_initial_context seed).passenger_name = none ∧
      (create_initial_context seed).confirmation_number = none ∧
      (create_initial_context seed).seat_number = none ∧
      (create_initial_context seed).flight_number = none := by
  obtain ⟨hlo, hhi⟩ := randint_mem 10000000 99999999 seed (by norm_num)
  refine ⟨randint 10000000 99999999 seed, hlo, hhi, rfl, ?_, toDecString_chars _,
    rfl, rfl, rfl, rfl⟩
  exact toDecString_length_of_lt (k := 7) (by norm_num at hlo ⊢; omega)
    (by norm_num at hhi ⊢; omega)

/-- Claim C7, counterexample: the question "plane wifi" contains "wifi" in
its lowercased text, yet `faq_lookup_tool` answers with the seats text, not
the wifi text, because the seats/plane branch is checked first. -/
theorem faq_wifi_cex :
    strContains (pyLower "plane wifi") "wifi" = true ∧
    faq_lookup_tool "plane wifi" ≠ "We have free wifi on the plane, join Airline-Wifi" := by
  constructor
  · decide
  · decide

/-- Claim C7 (amended): `faq_lookup_tool` returns the wifi answer verbatim
for every question whose lowercased text contains "wifi" and contains none
of "bag", "baggage", "seats", "plane" (the branches checked earlier); the
concrete question from the scenario satisfies these side conditions. -/
theorem faq_wifi (q : String)
    (hw : strContains (pyLower q) "wifi" = true)
    (hb : strContains (pyLower q) "bag" = false)
    (hbg : strContains (pyLower q) "baggage" = false)
    (hs : strContains (pyLower q) "seats" = false)
    (hpl : strContains (pyLower q) "plane" = false) :
    faq_lookup_tool q = "We have free wifi on the plane, join Airline-Wifi" := by
  simp [faq_lookup_tool, hw, hb, hbg, hs, hpl]

/-- Witness for the amended C7 at the scenario question. -/
theorem faq_wifi_witness :
    (strContains (pyLower "What\x27s your wifi policy?") "wifi" = true) ∧
    (strContains (pyLower "What\x27s your wifi policy?") "bag" = false) ∧
    (strContains (pyLower "What\x27s your wifi policy?") "baggage" = false) ∧
    (strContains (pyLower "What\x27s your wifi policy?") "seats" = false) ∧
    (strContains (pyLower "What\x27s your wifi policy?") "plane" = false) ∧
    faq_lookup_tool "What\x27s your wifi policy?" =
      "We have free wifi on the plane, join Airline-Wifi" :=
  ⟨by decide, by decide, by decide, by decide, by decide,
    faq_wifi "What\x27s your wifi policy?" (by decide) (by decide) (by decide)
      (by decide) (by decide)⟩

/-- Claim C8: in the routing graph as constructed at process start, each of
the four spoke handlers lists the entry handler among its outgoing handoffs:
no handler is a dead end. -/
theorem every_spoke_returns_to_triage :
    triage_agent.name ∈ faq_agent.handoffs ∧
    triage_agent.name ∈ seat_booking_agent.handoffs ∧
    triage_agent.name ∈ flight_status_agent.handoffs ∧
    triage_agent.name ∈ cancellation_agent.handoffs := by
  decide

/-- Claim C9: with the external inference call modelled as a given verdict
function, the relevance guardrail trips exactly when `is_relevant` is false,
the jailbreak guardrail trips exactly when `is_safe` is false, and neither
guardrail changes the Session Context. -/
theorem guardrails_trip_iff_and_pure
    (rcheck : String → RelevanceOutput) (jcheck : String → JailbreakOutput)
    (ctx : AirlineAgentContext) (input : String) :
    ((relevance_guardrail rcheck ctx input).fst.tripwire_triggered = true ↔
      (rcheck input).is_relevant = false) ∧
    (relevance_guardrail rcheck ctx input).snd = ctx ∧
    ((jailbreak_guardrail jcheck ctx input).fst.tripwire_triggered = true ↔
      (jcheck input).is_safe = false) ∧
    (jailbreak_guardrail jcheck ctx input).snd = ctx := by
  refine ⟨?_, rfl, ?_, rfl⟩ <;>
    simp [relevance_guardrail, jailbreak_guardrail]

/-- Claim C10: `on_seat_booking_handoff` overwrites both identifier fields
with fresh synthetic values on every context, whatever their prior values:
afterwards `flight_number` is "FLT-" followed by a three-digit decimal and
`confirmation_number` is a 6-character string over uppercase letters and
digits, while all other fields are untouched. -/
theorem seat_booking_handoff_overwrites
    (fseed : Nat) (cseed : Nat → Nat) (ctx : AirlineAgentContext) :
    (∃ m : Nat, 100 ≤ m ∧ m ≤ 999 ∧
      (on_seat_booking_handoff fseed cseed ctx).flight_number =
        some ("FLT-" ++ toDecString m) ∧
      (toDecString m).length = 3 ∧
      (∀ c ∈ (toDecString m).data, c ∈ ("0123456789" : String).data)) ∧
    (∃ l : List Char, l.length = 6 ∧ (∀ c ∈ l, c ∈ confAlphabet) ∧
      (on_seat_booking_handoff fseed cseed ctx).confirmation_number =
        some (String.mk l)) ∧
    (on_seat_booking_handoff fseed cseed ctx).passenger_name = ctx.passenger_name ∧
    (on_seat_booking_handoff fseed cseed ctx).seat_number = ctx.seat_number ∧
    (on_seat_booking_handoff fseed cseed ctx).account_number = ctx.account_number := by
  obtain ⟨hlo, hhi⟩ := randint_mem 100 999 fseed (by norm_num)
  refine ⟨⟨randint 100 999 fseed, hlo, hhi, rfl, ?_, toDecString_chars _⟩,
    ⟨pyChoices confAlphabet 6 cseed, pyChoices_length _ _ _,
      pyChoices_mem (by decide) 6 cseed, rfl⟩, rfl, rfl, rfl⟩
  exact toDecString_length_of_lt (k := 2) (by norm_num at hlo ⊢; omega)
    (by norm_num at hhi ⊢; omega)
